import Mathlib

/-!
Shallow embedding of the multi-core Fibonacci benchmark (`benchmark.js`)
and proofs about its metric derivation, run sequencing and worker
bookkeeping.

JavaScript arithmetic on the values appearing in the benchmark's metric
formulas is modelled by `JSNum`: an exact rational together with the IEEE
special values that actually arise (`NaN`, `Infinity`, `-Infinity`).  The
quantities fed into the formulas are integers and short decimal fractions,
which IEEE doubles represent exactly and on which double arithmetic agrees
with exact rational arithmetic, so this model is faithful for the
properties proved below.
-/

/-- A JavaScript number: an exact rational, or one of the special values
`NaN`, `Infinity`, `-Infinity`. -/
inductive JSNum where
  | num (q : ℚ)
  | nan
  | inf
  | ninf
deriving DecidableEq

/-- JavaScript `+` on numbers. -/
def jsAdd : JSNum → JSNum → JSNum
  | .num a, .num b => .num (a + b)
  | .nan, _ => .nan
  | _, .nan => .nan
  | .inf, .ninf => .nan
  | .ninf, .inf => .nan
  | .inf, _ => .inf
  | _, .inf => .inf
  | .ninf, _ => .ninf
  | _, .ninf => .ninf

/-- JavaScript `-` on numbers. -/
def jsSub : JSNum → JSNum → JSNum
  | .num a, .num b => .num (a - b)
  | .nan, _ => .nan
  | _, .nan => .nan
  | .inf, .inf => .nan
  | .ninf, .ninf => .nan
  | .inf, _ => .inf
  | .ninf, _ => .ninf
  | .num _, .inf => .ninf
  | .num _, .ninf => .inf

/-- JavaScript `*` on numbers. -/
def jsMul : JSNum → JSNum → JSNum
  | .num a, .num b => .num (a * b)
  | .nan, _ => .nan
  | _, .nan => .nan
  | .inf, .inf => .inf
  | .inf, .ninf => .ninf
  | .ninf, .inf => .ninf
  | .ninf, .ninf => .inf
  | .inf, .num b => if b = 0 then .nan else if 0 < b then .inf else .ninf
  | .num a, .inf => if a = 0 then .nan else if 0 < a then .inf else .ninf
  | .ninf, .num b => if b = 0 then .nan else if 0 < b then .ninf else .inf
  | .num a, .ninf => if a = 0 then .nan else if 0 < a then .ninf else .inf

/-- JavaScript `/` on numbers (division by `+0` of a nonzero numerator
gives a signed infinity; `0 / 0` gives `NaN`). -/
def jsDiv : JSNum → JSNum → JSNum
  | .num a, .num b =>
      if b = 0 then (if a = 0 then .nan else if 0 < a then .inf else .ninf)
      else .num (a / b)
  | .nan, _ => .nan
  | _, .nan => .nan
  | .inf, .inf => .nan
  | .inf, .ninf => .nan
  | .ninf, .inf => .nan
  | .ninf, .ninf => .nan
  | .inf, .num b => if 0 ≤ b then .inf else .ninf
  | .ninf, .num b => if 0 ≤ b then .ninf else .inf
  | .num _, .inf => .num 0
  | .num _, .ninf => .num 0

/-- JavaScript `Math.round`: half-way cases round toward `+Infinity`;
`NaN` and the infinities are returned unchanged. -/
def jsRound : JSNum → JSNum
  | .num q => .num ((⌊q + 1/2⌋ : ℤ) : ℚ)
  | x => x

/-- JavaScript `Math.floor`; `NaN` and the infinities are returned
unchanged. -/
def jsFloor : JSNum → JSNum
  | .num q => .num ((⌊q⌋ : ℤ) : ℚ)
  | x => x

/-- JavaScript binary `Math.max` (`NaN` poisons). -/
def jsMax : JSNum → JSNum → JSNum
  | .nan, _ => .nan
  | _, .nan => .nan
  | .inf, _ => .inf
  | _, .inf => .inf
  | .ninf, x => x
  | x, .ninf => x
  | .num a, .num b => .num (max a b)

/-- JavaScript binary `Math.min` (`NaN` poisons). -/
def jsMin : JSNum → JSNum → JSNum
  | .nan, _ => .nan
  | _, .nan => .nan
  | .ninf, _ => .ninf
  | _, .ninf => .ninf
  | .inf, x => x
  | x, .inf => x
  | .num a, .num b => .num (min a b)

/-!
## WorkUnit: `calculateFibonacci` (benchmark.js lines 253-267)

```js
function calculateFibonacci(n) {
    if (n <= 1) { return BigInt(n); }
    let a = 0n;
    let b = 1n;
    for (let i = 2; i <= n; i++) {
        let temp = a + b;
        a = b;
        b = temp;
    }
    return b;
}
```
The `for` loop executes `n - 1` iterations when `n ≥ 2`; each iteration
maps the rolling pair `(a, b)` to `(b, a + b)`.
-/

/-- One pass of the two-rolling-value loop body, iterated a given number of
times: `(a, b) ↦ (b, a + b)`. -/
def fibLoop : ℕ → ℤ × ℤ → ℤ × ℤ
  | 0, p => p
  | k + 1, (a, b) => fibLoop k (b, a + b)

/-- `calculateFibonacci` from benchmark.js: BigInt arithmetic is exact
integer arithmetic, so the embedding uses `ℤ`. -/
def calculateFibonacci (n : ℤ) : ℤ :=
  if n ≤ 1 then n
  else (fibLoop (n - 1).toNat (0, 1)).2

/-- The rolling pair `(a, b)` tracks consecutive Fibonacci values: iterating
the loop body `k` times from `(fib m, fib (m+1))` lands on
`(fib (m+k), fib (m+k+1))`. -/
theorem fibLoop_fib (k m : ℕ) :
    fibLoop k ((Nat.fib m : ℤ), (Nat.fib (m + 1) : ℤ))
      = ((Nat.fib (m + k) : ℤ), (Nat.fib (m + k + 1) : ℤ)) := by
  induction k generalizing m with
  | zero => rfl
  | succ k ih =>
      have h2 : ((Nat.fib m : ℤ) + (Nat.fib (m + 1) : ℤ)) = (Nat.fib (m + 1 + 1) : ℤ) := by
        rw [show m + 1 + 1 = m + 2 from rfl, Nat.fib_add_two]
        push_cast
        ring
      rw [fibLoop, h2, ih (m + 1)]
      have e1 : m + 1 + k = m + (k + 1) := by omega
      rw [e1]

/-- C3: for every non-negative integer `n`, `calculateFibonacci n` equals the
standard Fibonacci value at index `n` (base cases 0 and 1), computed by the
iterative two-rolling-value loop, and the function is deterministic: two
calls on the same `n` agree. -/
theorem calculateFibonacci_eq_fib (n : ℕ) :
    calculateFibonacci (n : ℤ) = (Nat.fib n : ℤ)
      ∧ calculateFibonacci (n : ℤ) = calculateFibonacci (n : ℤ) := by
  refine ⟨?_, rfl⟩
  match n with
  | 0 => norm_num [calculateFibonacci]
  | 1 => norm_num [calculateFibonacci]
  | k + 2 =>
      unfold calculateFibonacci
      rw [if_neg (by push_cast; omega)]
      have ht : (((k + 2 : ℕ) : ℤ) - 1).toNat = k + 1 := by push_cast; omega
      rw [ht]
      rw [show ((0 : ℤ), (1 : ℤ)) = ((Nat.fib 0 : ℤ), (Nat.fib 1 : ℤ)) by norm_num]
      rw [fibLoop_fib (k + 1) 0]
      norm_num

/-- C10: for every negative integer `n`, `calculateFibonacci n` returns the
index itself (the `n <= 1` base branch covers all negative inputs). -/
theorem calculateFibonacci_neg_returns_index (n : ℤ) (h : n < 0) :
    calculateFibonacci n = n := by
  unfold calculateFibonacci
  rw [if_pos (by omega)]

/-- Concrete instance of `calculateFibonacci_neg_returns_index` at `n = -7`. -/
theorem calculateFibonacci_neg_returns_index_witness :
    (-7 : ℤ) < 0 ∧ calculateFibonacci (-7) = -7 :=
  ⟨by norm_num, calculateFibonacci_neg_returns_index (-7) (by norm_num)⟩

/-!
## Memory formatting: `getMemoryUsage` / `formatBytes` (benchmark.js lines 221-243)

`formatBytes` renders a byte count in an auto-selected unit:

```js
if (bytes >= 1024 * 1024 * 1024)      return `[v] GB`;  // v = (bytes/2^30).toFixed(2)
else if (bytes >= 1024 * 1024)        return `[v] MB`;
else if (bytes >= 1024)               return `[v] KB`;
else                                  return `[bytes] B`;
```

Line 433 later applies `parseFloat` to such a string, recovering exactly the
numeric magnitude in the chosen unit, which `formatBytesValue` models.
`toFixed(2)` rounds to two decimals, half-way cases toward the larger
candidate.
-/

/-- JavaScript `toFixed(2)` on a non-negative rational: round to two
decimal places, half-way cases picking the larger value. -/
def toFixed2 (q : ℚ) : ℚ :=
  ((⌊100 * q + 1/2⌋ : ℤ) : ℚ) / 100

/-- The numeric magnitude of `formatBytes(bytes)`: the byte count expressed
in the display unit selected by magnitude (GB / MB / KB / B) and rounded to
two decimals (except in the bytes band, printed exactly).  This is what
`parseFloat(str.split(' ')[0])` recovers from the formatted string. -/
def formatBytesValue (bytes : ℚ) : ℚ :=
  if bytes ≥ 1024 * 1024 * 1024 then toFixed2 (bytes / (1024 * 1024 * 1024))
  else if bytes ≥ 1024 * 1024 then toFixed2 (bytes / (1024 * 1024))
  else if bytes ≥ 1024 then toFixed2 (bytes / 1024)
  else bytes

/-!
## Derived metrics (benchmark.js lines 424-435)

```js
const avgFibIndex = Math.floor(totalFibIndex / numCores);
const calculationsPerSecond = Math.round(totalFibIndex / (durationMs / 1000));
const coreEfficiency = Math.round((totalFibIndex / numCores) / (totalFibIndex / numCores) * 100);
const memoryEfficiency = Math.round((totalFibIndex / parseFloat(peakMemoryUsage.rss.split(' ')[0])) * 1000);
const overallScore = Math.round(calculationsPerSecond * (coreEfficiency / 100) * (memoryEfficiency / 1000));
```

`peakMemoryUsage.rss` is the formatted string for the peak resident byte
count, so the divisor in `memoryEfficiency` is `formatBytesValue` of the
peak bytes.
-/

/-- `averageFibonacciIndexPerCore` as derived at run completion. -/
def avgFibIndex (totalFibIndex numCores : ℕ) : JSNum :=
  jsFloor (jsDiv (.num totalFibIndex) (.num numCores))

/-- `calculationsPerSecond` as derived at run completion. -/
def calculationsPerSecond (totalFibIndex : ℕ) (durationMs : ℚ) : JSNum :=
  jsRound (jsDiv (.num totalFibIndex) (jsDiv (.num durationMs) (.num 1000)))

/-- `coreEfficiency` as derived at run completion. -/
def coreEfficiency (totalFibIndex numCores : ℕ) : JSNum :=
  jsRound (jsMul
    (jsDiv (jsDiv (.num totalFibIndex) (.num numCores))
           (jsDiv (.num totalFibIndex) (.num numCores)))
    (.num 100))

/-- `memoryEfficiency` as derived at run completion; `peakRSSBytes` is the
peak resident byte count whose formatted string is parsed back on line 433. -/
def memoryEfficiency (totalFibIndex : ℕ) (peakRSSBytes : ℚ) : JSNum :=
  jsRound (jsMul
    (jsDiv (.num totalFibIndex) (.num (formatBytesValue peakRSSBytes)))
    (.num 1000))

/-- `overallScore` as derived at run completion. -/
def overallScore (totalFibIndex numCores : ℕ) (durationMs peakRSSBytes : ℚ) : JSNum :=
  jsRound (jsMul
    (jsMul (calculationsPerSecond totalFibIndex durationMs)
           (jsDiv (coreEfficiency totalFibIndex numCores) (.num 100)))
    (jsDiv (memoryEfficiency totalFibIndex peakRSSBytes) (.num 1000)))

/-- Dividing a nonzero JavaScript number by itself yields exactly 1. -/
theorem jsDiv_num_self {q : ℚ} (hq : q ≠ 0) : jsDiv (.num q) (.num q) = .num 1 := by
  simp [jsDiv, hq, div_self hq]

/-- C9: whenever `totalUnits > 0` and `coreCount ≥ 1`, the derived
`coreEfficiency` is the constant 100: the formula divides the per-core
average by itself, independently of how work was distributed. -/
theorem coreEfficiency_constant_100 (T n : ℕ) (hT : 0 < T) (hn : 0 < n) :
    coreEfficiency T n = .num 100 := by
  have hn0 : ((n : ℚ)) ≠ 0 := Nat.cast_ne_zero.mpr hn.ne'
  have hT0 : ((T : ℚ)) ≠ 0 := Nat.cast_ne_zero.mpr hT.ne'
  have hq : (T : ℚ) / (n : ℚ) ≠ 0 := div_ne_zero hT0 hn0
  unfold coreEfficiency
  rw [show jsDiv (.num (T : ℚ)) (.num (n : ℚ)) = .num ((T : ℚ) / (n : ℚ)) from by
        simp [jsDiv, hn0]]
  rw [jsDiv_num_self hq]
  simp only [jsMul, jsRound]
  norm_num

/-- Concrete instance of `coreEfficiency_constant_100`: six units of work on
four cores give a core efficiency of exactly 100. -/
theorem coreEfficiency_constant_100_witness :
    0 < 6 ∧ 0 < 4 ∧ coreEfficiency 6 4 = .num 100 :=
  ⟨by norm_num, by norm_num,
    coreEfficiency_constant_100 6 4 (by norm_num) (by norm_num)⟩

/-!
## C1: metric derivation at `totalUnits == 0`

At run completion the code computes every metric unconditionally.  With
`totalFibIndex = 0` the `coreEfficiency` formula evaluates `0/0`, which in
JavaScript is `NaN` (no exception), and `NaN` propagates into
`overallScore`.  No degraded-run flag exists anywhere in the RunResult.
-/

/-- C1 (counterexample): with `totalUnits = 0` (4 cores, 30000 ms elapsed,
8 MB peak RSS) the code does compute `overallScore`, and both
`coreEfficiency` and `overallScore` are `NaN`, not the zero score and
zeroed metrics the claim describes. -/
theorem coreEfficiency_overallScore_nan_of_no_units :
    coreEfficiency 0 4 = .nan
      ∧ overallScore 0 4 30000 (8 * 1024 * 1024) = .nan
      ∧ JSNum.nan ≠ JSNum.num 0 := by
  refine ⟨?_, ?_, by simp⟩
  · simp [coreEfficiency, jsDiv, jsMul, jsRound]
  · simp [overallScore, calculationsPerSecond, coreEfficiency, memoryEfficiency,
      formatBytesValue, toFixed2, jsDiv, jsMul, jsRound]

/-- C1 (amended): when `totalUnits = 0` at completion, no division error is
raised — JavaScript division is total — and `calculationsPerSecond` and
`memoryEfficiency` are 0, but `coreEfficiency` and `overallScore` are
computed as `NaN` (from `0/0`); the RunResult carries these `NaN` metrics
and there is no degraded-run flag. -/
theorem zero_units_metrics_values (n : ℕ) (d P : ℚ) (hn : 0 < n) (hd : 0 < d)
    (hP : formatBytesValue P ≠ 0) :
    calculationsPerSecond 0 d = .num 0
      ∧ memoryEfficiency 0 P = .num 0
      ∧ coreEfficiency 0 n = .nan
      ∧ overallScore 0 n d P = .nan := by
  have hd1000 : d / 1000 ≠ 0 := by positivity
  have hcps : calculationsPerSecond 0 d = .num 0 := by
    simp [calculationsPerSecond, jsDiv, hd.ne', hd1000, jsRound]
    norm_num
  have hme : memoryEfficiency 0 P = .num 0 := by
    simp [memoryEfficiency, jsDiv, hP, jsMul, jsRound]
    norm_num
  have hn0 : ((n : ℚ)) ≠ 0 := Nat.cast_ne_zero.mpr hn.ne'
  have hce : coreEfficiency 0 n = .nan := by
    simp [coreEfficiency, jsDiv, hn0, jsMul, jsRound]
  refine ⟨hcps, hme, hce, ?_⟩
  rw [overallScore, hcps, hme, hce]
  simp [jsDiv, jsMul, jsRound]

/-- Concrete instance of `zero_units_metrics_values`: 4 cores, 30000 ms,
8 MB peak. -/
theorem zero_units_metrics_values_witness :
    calculationsPerSecond 0 30000 = .num 0
      ∧ memoryEfficiency 0 (8 * 1024 * 1024) = .num 0
      ∧ coreEfficiency 0 4 = .nan
      ∧ overallScore 0 4 30000 (8 * 1024 * 1024) = .nan :=
  zero_units_metrics_values 4 30000 (8 * 1024 * 1024) (by norm_num) (by norm_num)
    (by norm_num [formatBytesValue, toFixed2])

/-!
## C5: `memoryEfficiency` versus the claimed per-megabyte formula

The claim states `memoryEfficiency = round(totalUnits / (peak / 2^20) * 1000)`
for all peak magnitudes.  The code instead divides by `parseFloat` of the
*formatted* peak string, whose unit depends on the magnitude (GB above
1 GiB, KB/B below 1 MiB), so the claimed formula only matches inside the
megabyte band.
-/

/-- The `memoryEfficiency` formula exactly as the claim states it:
calculations per megabyte of peak resident memory, scaled by 1000
(`round(U / (P / 2^20) * 1000)`). -/
def claimedMemoryEfficiency (totalFibIndex : ℕ) (peakRSSBytes : ℚ) : JSNum :=
  jsRound (.num ((totalFibIndex : ℚ) / (peakRSSBytes / (1024 * 1024)) * 1000))

/-- C5 (counterexample): at a peak of 2 GiB the code divides by the GB
magnitude 2, giving 1024000 for 2048 units, while the claimed per-MB
formula gives 1000; at a peak of 512 KiB the code divides by the KB
magnitude 512, giving 1000 for 512 units, while the claimed formula gives
1024000. -/
theorem memoryEfficiency_gb_band_diverges :
    memoryEfficiency 2048 (2 * 1024 * 1024 * 1024) = .num 1024000
      ∧ claimedMemoryEfficiency 2048 (2 * 1024 * 1024 * 1024) = .num 1000
      ∧ memoryEfficiency 2048 (2 * 1024 * 1024 * 1024)
          ≠ claimedMemoryEfficiency 2048 (2 * 1024 * 1024 * 1024)
      ∧ memoryEfficiency 512 (512 * 1024) = .num 1000
      ∧ claimedMemoryEfficiency 512 (512 * 1024) = .num 1024000 := by
  refine ⟨?_, ?_, ?_, ?_, ?_⟩ <;>
    norm_num [memoryEfficiency, claimedMemoryEfficiency, formatBytesValue,
      toFixed2, jsDiv, jsMul, jsRound]

/-- C5 (amended): the code's `memoryEfficiency` divides by the peak
rendered in the auto-selected display unit; it agrees with the claimed
per-megabyte formula exactly on the megabyte band (`2^20 ≤ P < 2^30`) when
the peak's MB value is exact at two decimals. -/
theorem memoryEfficiency_mb_band_matches_claim (U : ℕ) (P : ℚ)
    (h1 : 1024 * 1024 ≤ P) (h2 : P < 1024 * 1024 * 1024)
    (h3 : toFixed2 (P / (1024 * 1024)) = P / (1024 * 1024)) :
    memoryEfficiency U P = claimedMemoryEfficiency U P := by
  have hPpos : (0 : ℚ) < P := lt_of_lt_of_le (by norm_num) h1
  have hmb : (0 : ℚ) < P / (1024 * 1024) := by positivity
  have hfmt : formatBytesValue P = P / (1024 * 1024) := by
    rw [formatBytesValue, if_neg (by linarith), if_pos h1, h3]
  rw [memoryEfficiency, claimedMemoryEfficiency, hfmt]
  rw [show jsDiv (.num (U : ℚ)) (.num (P / (1024 * 1024)))
        = .num ((U : ℚ) / (P / (1024 * 1024))) from by simp [jsDiv, hmb.ne']]
  simp [jsMul]

/-- Concrete instance of `memoryEfficiency_mb_band_matches_claim`: 100 units
at a 3 MiB peak give `round(100 / 3 * 1000) = 33333` on both sides. -/
theorem memoryEfficiency_mb_band_matches_claim_witness :
    memoryEfficiency 100 (3 * 1024 * 1024) = claimedMemoryEfficiency 100 (3 * 1024 * 1024)
      ∧ memoryEfficiency 100 (3 * 1024 * 1024) = .num 33333 := by
  constructor
  · exact memoryEfficiency_mb_band_matches_claim 100 (3 * 1024 * 1024)
      (by norm_num) (by norm_num) (by norm_num [toFixed2])
  · norm_num [memoryEfficiency, formatBytesValue, toFixed2, jsDiv, jsMul, jsRound]

/-!
## System profile: `getSystemInfo` (benchmark.js lines 273-286)

```js
const cpus = os.cpus();
return {
    cpu: {
        model: cpus.length > 0 ? cpus[0].model : 'N/A',
        cores: cpus.length
    }, ...
};
```

`numCores = systemInfo.cpu.cores` (line 323) is used directly to spawn
workers and as the per-core divisor.
-/

/-- One entry of the `os.cpus()` array (only the model string is read). -/
structure CPU where
  model : String

/-- The `cpu` part of the object returned by `getSystemInfo`, as a function
of the detected CPU list. -/
structure SystemCPUInfo where
  model : String
  cores : ℕ

/-- `getSystemInfo().cpu` from benchmark.js. -/
def getSystemInfoCPU (cpus : List CPU) : SystemCPUInfo :=
  { model := match cpus with
      | [] => "N/A"
      | c :: _ => c.model
  , cores := cpus.length }

/-- C6 (counterexample): when CPU detection yields an empty core list,
`getSystemInfo` reports `cores = 0`; no fallback to 1 exists anywhere. -/
theorem no_coreCount_fallback_on_empty_cpus :
    (getSystemInfoCPU []).cores = 0 ∧ (getSystemInfoCPU []).cores ≠ 1 :=
  ⟨rfl, by simp [getSystemInfoCPU]⟩

/-- C6 (amended): `coreCount` is exactly the length of the detected CPU
list, never clamped, so an empty detection yields `coreCount = 0` and the
per-core average `floor(totalUnits / coreCount)` then evaluates to
`Infinity` (for positive totals) or `NaN` (for a zero total) instead of
being guarded by a fallback. -/
theorem coreCount_unclamped_empty_cpus (T : ℕ) (hT : 0 < T) :
    (getSystemInfoCPU []).cores = 0
      ∧ avgFibIndex T (getSystemInfoCPU []).cores = .inf
      ∧ avgFibIndex 0 (getSystemInfoCPU []).cores = .nan := by
  have hT0 : (0 : ℚ) < (T : ℚ) := by exact_mod_cast hT
  refine ⟨rfl, ?_, ?_⟩
  · show avgFibIndex T 0 = .inf
    simp [avgFibIndex, jsDiv, hT0, hT0.ne', jsFloor]
  · show avgFibIndex 0 0 = .nan
    simp [avgFibIndex, jsDiv, jsFloor]

/-- Concrete instance of `coreCount_unclamped_empty_cpus` at `T = 5`. -/
theorem coreCount_unclamped_empty_cpus_witness :
    (getSystemInfoCPU []).cores = 0
      ∧ avgFibIndex 5 (getSystemInfoCPU []).cores = .inf
      ∧ avgFibIndex 0 (getSystemInfoCPU []).cores = .nan :=
  coreCount_unclamped_empty_cpus 5 (by norm_num)

/-!
## Aggregated results (benchmark.js lines 498-532)

```js
const totalCalculations = allRuns.reduce((sum, run) => sum + run.totalFibonacciIndex, 0);
const avgScore = Math.round(allRuns.reduce((sum, run) => sum + run.performanceMetrics.overallScore, 0) / allRuns.length);
const bestScore = Math.max(...allRuns.map(run => run.performanceMetrics.overallScore));
const worstScore = Math.min(...allRuns.map(run => run.performanceMetrics.overallScore));
...
averageCalculationsPerRun: Math.round(totalCalculations / allRuns.length),
scoreVariance: Math.round(bestScore - worstScore)
```

`Math.max()` of an empty spread is `-Infinity`, `Math.min()` is
`+Infinity`.
-/

/-- The per-run fields consumed by the aggregation. -/
structure RunRec where
  totalFibonacciIndex : ℕ
  overallScore : JSNum

/-- `totalCalculations`: sum of per-run totals. -/
def totalCalculations (allRuns : List RunRec) : ℕ :=
  allRuns.foldl (fun sum run => sum + run.totalFibonacciIndex) 0

/-- `averageScore`: summed scores divided by the number of runs. -/
def avgScore (allRuns : List RunRec) : JSNum :=
  jsRound (jsDiv
    (allRuns.foldl (fun sum run => jsAdd sum run.overallScore) (.num 0))
    (.num allRuns.length))

/-- `bestScore`: `Math.max` over the spread score list (empty gives
`-Infinity`). -/
def bestScore (allRuns : List RunRec) : JSNum :=
  (allRuns.map RunRec.overallScore).foldl jsMax .ninf

/-- `worstScore`: `Math.min` over the spread score list (empty gives
`+Infinity`). -/
def worstScore (allRuns : List RunRec) : JSNum :=
  (allRuns.map RunRec.overallScore).foldl jsMin .inf

/-- `scoreVariance = Math.round(bestScore - worstScore)`. -/
def scoreVariance (allRuns : List RunRec) : JSNum :=
  jsRound (jsSub (bestScore allRuns) (worstScore allRuns))

/-- `averageCalculationsPerRun`. -/
def averageCalculationsPerRun (allRuns : List RunRec) : JSNum :=
  jsRound (jsDiv (.num (totalCalculations allRuns)) (.num allRuns.length))

/-- C7 (counterexample): with zero collected RunResults the aggregation
emits exactly the artifacts the claim rules out: `averageScore` is `NaN`
(a `0/0` division), `bestScore` is `-Infinity` and `worstScore` is
`+Infinity` (empty extrema). -/
theorem empty_runs_aggregate_artifacts :
    avgScore [] = .nan ∧ bestScore [] = .ninf ∧ worstScore [] = .inf := by
  refine ⟨?_, rfl, rfl⟩
  simp [avgScore, jsDiv, jsRound]

/-- C7 (amended): over an empty RunResult list, `totalCalculations` is 0
but `averageScore` and `averageCalculationsPerRun` are `NaN` (0/0),
`bestScore` is `-Infinity`, `worstScore` is `+Infinity` and
`scoreVariance` is `-Infinity`: the "zero completed runs" report carries
division-by-zero and empty-extremum artifacts, not well-defined zeroed
statistics. -/
theorem empty_runs_aggregate_values :
    totalCalculations [] = 0
      ∧ avgScore [] = .nan
      ∧ bestScore [] = .ninf
      ∧ worstScore [] = .inf
      ∧ scoreVariance [] = .ninf
      ∧ averageCalculationsPerRun [] = .nan := by
  refine ⟨rfl, ?_, rfl, rfl, rfl, ?_⟩
  · simp [avgScore, jsDiv, jsRound]
  · simp [averageCalculationsPerRun, totalCalculations, jsDiv, jsRound]

/-!
## Run lifecycle: `runSingleBenchmark` / `runAllBenchmarks` (benchmark.js lines 343-495)

Inside one run the coordinating thread observes a sequence of timer
events: the 1-second `setInterval` memory checks (lines 394-410) and the
duration `setTimeout` deadline (lines 413-474).  A memory check compares
the current RSS against `MAX_RAM_MB * 1024 * 1024`; on a breach it stops
sampling, terminates the workers and resolves the run promise with
`{ error: 'RAM_LIMIT_EXCEEDED' }`; otherwise it updates the peak RSS and
waits for the next event.  The deadline event resolves the promise with a
RunResult.  A promise resolves at most once, so the first resolving event
wins.

`runAllBenchmarks` (lines 479-495) sequences the runs: it awaits each run
in order, breaks out of the loop on an error outcome without appending
anything, and appends the RunResult otherwise.
-/

/-- A timer event observed by the coordinating thread during one run, with
its firing time in milliseconds from the run's start. -/
inductive RunEvent where
  | memCheck (timeMs rssBytes : ℕ)
  | deadline (timeMs : ℕ)
deriving DecidableEq

/-- How one run resolves: the memory-limit abort (with the time of the
breaching sample) or a completed RunResult (abstracted to the peak RSS and
the deadline firing time). -/
inductive RunOutcome where
  | ramLimitExceeded (atTimeMs : ℕ)
  | completed (peakRSSBytes endTimeMs : ℕ)
deriving DecidableEq

/-- The memory-limit test of line 398:
`MAX_RAM_MB !== null && currentRSS > MAX_RAM_MB * 1024 * 1024`. -/
def exceedsLimit (maxRamMB : Option ℕ) (rssBytes : ℕ) : Prop :=
  match maxRamMB with
  | none => False
  | some limit => limit * 1024 * 1024 < rssBytes

instance (maxRamMB : Option ℕ) (rssBytes : ℕ) : Decidable (exceedsLimit maxRamMB rssBytes) := by
  unfold exceedsLimit
  match maxRamMB with
  | none => exact inferInstance
  | some limit => exact inferInstance

/-- One run of `runSingleBenchmark`, processing its timer events in firing
order: a breaching memory check resolves with the abort, a non-breaching
one updates the peak RSS, the deadline resolves with a RunResult. `none`
means no event resolved the promise. -/
def runLoop (maxRamMB : Option ℕ) (peak : ℕ) : List RunEvent → Option RunOutcome
  | [] => none
  | .memCheck t rss :: rest =>
      if exceedsLimit maxRamMB rss then some (.ramLimitExceeded t)
      else runLoop maxRamMB (if peak < rss then rss else peak) rest
  | .deadline t :: _ => some (.completed peak t)

/-- `runAllBenchmarks`: sequence the runs, append each completed RunResult,
and break (collecting nothing further) on an error outcome.  Returns the
collected RunResults and the abort outcome, if any. -/
def runAll (maxRamMB : Option ℕ) : List (List RunEvent) → List RunOutcome × Option RunOutcome
  | [] => ([], none)
  | tr :: rest =>
      match runLoop maxRamMB 0 tr with
      | some (.ramLimitExceeded t) => ([], some (.ramLimitExceeded t))
      | some (.completed p e) =>
          let r := runAll maxRamMB rest
          ((RunOutcome.completed p e) :: r.1, r.2)
      | none => ([], none)

/-- A run whose pre-deadline samples include a breach aborts at some
breaching sample's time. -/
theorem runLoop_abort_of_breach (M : ℕ) (D : ℕ) (pre : List RunEvent) (peak : ℕ)
    (hpre : ∀ ev ∈ pre, ∃ t r, ev = .memCheck t r ∧ t < D)
    (hbreach : ∃ t r, RunEvent.memCheck t r ∈ pre ∧ M * 1024 * 1024 < r) :
    ∃ tb, tb < D ∧ runLoop (some M) peak (pre ++ [.deadline D]) = some (.ramLimitExceeded tb) := by
  induction pre generalizing peak with
  | nil =>
      obtain ⟨t, r, hmem, _⟩ := hbreach
      exact absurd hmem (List.not_mem_nil _)
  | cons ev pre ih =>
      obtain ⟨t, r, hev, htD⟩ := hpre ev (List.mem_cons_self ev pre)
      subst hev
      by_cases hlim : exceedsLimit (some M) r
      · refine ⟨t, htD, ?_⟩
        simp [runLoop, hlim]
      · have hbreach' : ∃ t' r', RunEvent.memCheck t' r' ∈ pre ∧ M * 1024 * 1024 < r' := by
          obtain ⟨t', r', hmem, hr'⟩ := hbreach
          rcases List.mem_cons.mp hmem with heq | hmem'
          · cases heq
            exact absurd hr' (by simpa [exceedsLimit] using hlim)
          · exact ⟨t', r', hmem', hr'⟩
        obtain ⟨tb, htb, hrun⟩ := ih (if peak < r then r else peak)
          (fun e he => hpre e (List.mem_cons_of_mem _ he)) hbreach'
        refine ⟨tb, htb, ?_⟩
        simpa [runLoop, hlim] using hrun

/-- Sequencing stops at an aborting run: the runs before it contribute
their RunResults, the aborting run contributes none, and the traces after
it are never examined. -/
theorem runAll_stops_at_abort (M : ℕ) (done : List (List RunEvent))
    (bad : List RunEvent) (rest : List (List RunEvent)) (tb : ℕ)
    (hdone : ∀ tr ∈ done, ∃ p e, runLoop (some M) 0 tr = some (.completed p e))
    (hbad : runLoop (some M) 0 bad = some (.ramLimitExceeded tb)) :
    runAll (some M) (done ++ bad :: rest)
      = ((runAll (some M) done).1, some (.ramLimitExceeded tb)) := by
  induction done with
  | nil =>
      simp [runAll, hbad]
  | cons tr done ih =>
      obtain ⟨p, e, htr⟩ := hdone tr (List.mem_cons_self tr done)
      have ih' := ih (fun t ht => hdone t (List.mem_cons_of_mem _ ht))
      simp only [List.cons_append, runAll, htr, List.append_eq, ih']

/-- C2: with a configured memory limit of `M` MB, a run one of whose
pre-deadline memory samples exceeds `M * 1024 * 1024` resident bytes
resolves with outcome `RAM_LIMIT_EXCEEDED` at a sample time strictly
before the deadline `D`; the orchestrator appends no RunResult for it (the
collected results are exactly those of the earlier completed runs) and
sequences none of the remaining runs (the result does not depend on
`rest`). -/
theorem ram_limit_aborts_run_and_sequencing (M D : ℕ)
    (done : List (List RunEvent)) (pre : List RunEvent) (rest : List (List RunEvent))
    (hdone : ∀ tr ∈ done, ∃ p e, runLoop (some M) 0 tr = some (.completed p e))
    (hpre : ∀ ev ∈ pre, ∃ t r, ev = .memCheck t r ∧ t < D)
    (hbreach : ∃ t r, RunEvent.memCheck t r ∈ pre ∧ M * 1024 * 1024 < r) :
    ∃ tb, tb < D
      ∧ runLoop (some M) 0 (pre ++ [.deadline D]) = some (.ramLimitExceeded tb)
      ∧ runAll (some M) (done ++ (pre ++ [.deadline D]) :: rest)
          = ((runAll (some M) done).1, some (.ramLimitExceeded tb)) := by
  obtain ⟨tb, htb, hrun⟩ := runLoop_abort_of_breach M D pre 0 hpre hbreach
  exact ⟨tb, htb, hrun, runAll_stops_at_abort M done _ rest tb hdone hrun⟩

/-- Concrete instance of `ram_limit_aborts_run_and_sequencing`: one
completed run, then a run whose 1-second sample reads 2 MiB + 1 byte
against a 1 MB limit, with one more run configured after it. -/
theorem ram_limit_aborts_run_and_sequencing_witness :
    ∃ tb, tb < 3000
      ∧ runLoop (some 1) 0 ([RunEvent.memCheck 1000 2097153] ++ [.deadline 3000])
          = some (.ramLimitExceeded tb)
      ∧ runAll (some 1) ([[RunEvent.deadline 3000]]
            ++ ([RunEvent.memCheck 1000 2097153] ++ [.deadline 3000]) :: [[RunEvent.deadline 3000]])
          = ((runAll (some 1) [[RunEvent.deadline 3000]]).1, some (.ramLimitExceeded tb)) := by
  refine ram_limit_aborts_run_and_sequencing 1 3000 [[RunEvent.deadline 3000]]
    [RunEvent.memCheck 1000 2097153] [[RunEvent.deadline 3000]] ?_ ?_ ?_
  · intro tr htr
    simp only [List.mem_singleton] at htr
    subst htr
    exact ⟨0, 3000, rfl⟩
  · intro ev hev
    simp only [List.mem_singleton] at hev
    subst hev
    exact ⟨1000, 2097153, rfl, by norm_num⟩
  · exact ⟨1000, 2097153, List.mem_singleton_self _, by norm_num⟩

/-!
## C4: run duration measurement (benchmark.js lines 340, 420-431)

```js
const startTime = process.hrtime.bigint();   // line 340: before ALL runs
...
const endTime = process.hrtime.bigint();     // inside run's deadline callback
const durationNs = endTime - startTime;
const durationMs = Number(durationNs) / 1_000_000;
```

`startTime` is taken once, at program start, outside `runSingleBenchmark`;
every run's `durationMs` is therefore measured from program start, and for
the second and later runs it includes all earlier runs and the 2-second
inter-run cooldowns.
-/

/-- `durationMs` as the code computes it in the deadline callback: the end
reading minus the single program-level `startTime` reading, converted from
nanoseconds to milliseconds. -/
def codeDurationMs (programStartNs runEndNs : ℤ) : ℚ :=
  ((runEndNs - programStartNs : ℤ) : ℚ) / 1000000

/-- Modelled from the spec: the duration the claim describes, measured from
the start timestamp recorded when that run itself enters Starting, covering
only the run's own elapsed time. -/
def claimedRunElapsedMs (runStartNs runEndNs : ℤ) : ℚ :=
  ((runEndNs - runStartNs : ℤ) : ℚ) / 1000000

/-- C4: with two 30-second runs separated by the 2-second cooldown (program
start at 0 ns, run 2 spanning 32e9 ns to 62e9 ns), the code reports run 2's
`durationMs` as 62000 ms — program start to run end — while the run's own
elapsed time is 30000 ms, and the `calculationsPerSecond` divisor is
accordingly wrong: 620000 units give 10000 instead of 20667. -/
theorem durationMs_measured_from_program_start :
    codeDurationMs 0 62000000000 = 62000
      ∧ claimedRunElapsedMs 32000000000 62000000000 = 30000
      ∧ codeDurationMs 0 62000000000 ≠ claimedRunElapsedMs 32000000000 62000000000
      ∧ calculationsPerSecond 620000 (codeDurationMs 0 62000000000) = .num 10000
      ∧ calculationsPerSecond 620000 (claimedRunElapsedMs 32000000000 62000000000)
          = .num 20667 := by
  refine ⟨?_, ?_, ?_, ?_, ?_⟩ <;>
    norm_num [codeDurationMs, claimedRunElapsedMs, calculationsPerSecond,
      jsDiv, jsRound]

/-!
## C8: worker failure bookkeeping (benchmark.js lines 350, 376-388, 453)

```js
let activeWorkers = numCores;
...
worker.on('error', (err) => { ...; activeWorkers--; });
worker.on('exit', (code) => { activeWorkers--; ... });
...
activeWorkersAtEnd: activeWorkers,
```

When a worker throws, Node emits its `'error'` event and then, once the
thread has stopped, its `'exit'` event (with a nonzero code) — both before
the run's deadline snapshot for a mid-run crash.  Both handlers decrement
`activeWorkers`.
-/

/-- A worker-lifecycle event delivered to the coordinating thread before
the deadline snapshot. -/
inductive WorkerEvent where
  | errorEvt (workerId : ℕ)
  | exitEvt (workerId : ℕ) (code : ℕ)
deriving DecidableEq

/-- The two handlers of lines 377-388: each decrements `activeWorkers`. -/
def handleWorkerEvent (activeWorkers : ℤ) : WorkerEvent → ℤ
  | .errorEvt _ => activeWorkers - 1
  | .exitEvt _ _ => activeWorkers - 1

/-- `activeWorkers` at the deadline snapshot, starting from `numCores` and
folding the handlers over the events delivered during the run. -/
def activeWorkersAtEnd (numCores : ℕ) (events : List WorkerEvent) : ℤ :=
  events.foldl handleWorkerEvent (numCores : ℤ)

/-- The events a single crashing worker delivers: `'error'`, then `'exit'`
with a nonzero code. -/
def crashEvents (workerId : ℕ) : List WorkerEvent :=
  [.errorEvt workerId, .exitEvt workerId 1]

/-- C8: on a 4-core run in which exactly worker 0 crashes, both its
`'error'` and `'exit'` handlers decrement the counter, so
`activeWorkersAtEnd` is 2, not the `coreCount - failures = 3` the claim
states. -/
theorem worker_crash_double_decrement :
    activeWorkersAtEnd 4 (crashEvents 0) = 2
      ∧ (4 : ℤ) - 1 = 3
      ∧ activeWorkersAtEnd 4 (crashEvents 0) ≠ 3 := by
  refine ⟨rfl, rfl, by decide⟩
